import Mathlib

/-!
Verification of the Tauri command bridge in
`src/apps/desktop/src-tauri/src/lib.rs`.

The bridge exposes three commands to the UI layer:

* `greet` — a pure greeting formatter;
* `request_file_write_permission` — a permission stub that always answers
  `Ok(true)` and ignores both of its arguments;
* `apply_file_edit` — an unconditional whole-file write through
  `std::fs::write`, mapping an OS error `e` to the message
  `"Failed to write file {path}: {e}"`.

The filesystem is embedded as a `World`: a map from paths to optional file
contents, together with a writability predicate (a path under a read-only
location, or naming a directory, is not writable), the OS error text the
host would report for a failed write at a given path, and a log of every
write attempt issued to the OS.  `std::fs::write` is embedded as `fsWrite`:
it records the attempt, and then either replaces the whole contents at the
path (creating the file if absent) or fails with the OS error, leaving the
file map untouched.
-/

/-- Substring containment: `sub` occurs verbatim inside `s`. -/
def strContains (s sub : String) : Prop :=
  ∃ a b, s = a ++ sub ++ b

/-- State of the host filesystem as seen by the bridge, plus a log of write
attempts used to express that no retry ever happens. -/
structure World where
  files : String → Option String
  writable : String → Bool
  osError : String → String
  writeLog : List (String × String)

/-- Embedding of `std::fs::write(path, content)`: one write attempt is logged;
if the path is writable the whole file is replaced (or created) with
`content`, otherwise the OS error for that path is returned and the file map
is unchanged. -/
def fsWrite (w : World) (path content : String) :
    Except String Unit × World :=
  let log := w.writeLog ++ [(path, content)]
  if w.writable path then
    (Except.ok (),
      ⟨fun p => if p = path then some content else w.files p,
        w.writable, w.osError, log⟩)
  else
    (Except.error (w.osError path), ⟨w.files, w.writable, w.osError, log⟩)

/-- Embedding of the Rust command
`fn greet(name: &str) -> String { format!("Hello, {}! You've been greeted from Rust!", name) }`. -/
def greet (name : String) : String :=
  "Hello, " ++ name ++ "! You've been greeted from Rust!"

/-- Embedding of the Rust command `request_file_write_permission`, which
ignores both arguments and returns `Ok(true)`. -/
def request_file_write_permission (_file_path _diff_preview : String) :
    Except String Bool :=
  Except.ok true

/-- Embedding of the Rust command `apply_file_edit`: a single call to
`fs::write`, with the error mapped to
`"Failed to write file {file_path}: {e}"`. -/
def apply_file_edit (w : World) (file_path content : String) :
    Except String Unit × World :=
  match fsWrite w file_path content with
  | (Except.ok _, w2) => (Except.ok (), w2)
  | (Except.error e, w2) =>
      (Except.error ("Failed to write file " ++ file_path ++ ": " ++ e), w2)

/-- Invocations dispatchable through the bridge's `invoke_handler`. -/
inductive Command where
  | greetCmd (name : String)
  | permCmd (filePath diffPreview : String)
  | editCmd (filePath content : String)

/-- Result marshalled back to the UI layer. -/
inductive CmdResult where
  | text (s : String)
  | boolOk (b : Bool)
  | unitOk
  | err (e : String)
deriving DecidableEq

/-- Dispatch of one bridge command against the current world, mirroring the
`invoke_handler` registration of the three commands. -/
def runCommand (w : World) : Command → CmdResult × World
  | Command.greetCmd n => (CmdResult.text (greet n), w)
  | Command.permCmd p d =>
      match request_file_write_permission p d with
      | Except.ok b => (CmdResult.boolOk b, w)
      | Except.error e => (CmdResult.err e, w)
  | Command.editCmd p c =>
      match apply_file_edit w p c with
      | (Except.ok _, w2) => (CmdResult.unitOk, w2)
      | (Except.error e, w2) => (CmdResult.err e, w2)

/-- Concrete world where every path is writable and no file exists yet. -/
def wAll : World :=
  ⟨fun _ => none, fun _ => true, fun _ => "os error", []⟩

/-- Concrete world where no path is writable, as under a read-only mount. -/
def wRO : World :=
  ⟨fun _ => none, fun _ => false,
    fun _ => "Permission denied (os error 13)", []⟩

/-- C1: whenever `apply_file_edit` returns success, the file at the given
path afterwards contains exactly the supplied content — whole-file
replacement of any previous contents. -/
theorem apply_file_edit_success_writes (w : World) (p c : String)
    (h : (apply_file_edit w p c).1 = Except.ok ()) :
    (apply_file_edit w p c).2.files p = some c := by
  by_cases hw : w.writable p = true
  · simp [apply_file_edit, fsWrite, hw]
  · simp [apply_file_edit, fsWrite, hw] at h

theorem apply_file_edit_success_writes_witness :
    (apply_file_edit wAll "notes.txt" "hello").1 = Except.ok () ∧
      (apply_file_edit wAll "notes.txt" "hello").2.files "notes.txt"
        = some "hello" :=
  ⟨rfl, apply_file_edit_success_writes wAll "notes.txt" "hello" rfl⟩

/-- C2: when the underlying write fails, `apply_file_edit` returns an error
whose text contains the supplied path and the underlying OS error, and
exactly one write attempt is made (no retry). -/
theorem apply_file_edit_error_describes (w : World) (p c : String)
    (h : w.writable p = false) :
    (apply_file_edit w p c).1
        = Except.error ("Failed to write file " ++ p ++ ": " ++ w.osError p)
      ∧ strContains ("Failed to write file " ++ p ++ ": " ++ w.osError p) p
      ∧ strContains ("Failed to write file " ++ p ++ ": " ++ w.osError p)
          (w.osError p)
      ∧ (apply_file_edit w p c).2.writeLog = w.writeLog ++ [(p, c)] := by
  refine ⟨by simp [apply_file_edit, fsWrite, h], ?_, ?_, ?_⟩
  · exact ⟨"Failed to write file ", ": " ++ w.osError p,
      by rw [String.append_assoc]⟩
  · exact ⟨"Failed to write file " ++ p ++ ": ", "",
      by rw [String.append_empty]⟩
  · by_cases hw : w.writable p = true
    · rw [h] at hw; exact absurd hw (by simp)
    · simp [apply_file_edit, fsWrite, hw]

theorem apply_file_edit_error_describes_witness :
    wRO.writable "/etc/hosts" = false ∧
      ((apply_file_edit wRO "/etc/hosts" "x").1
          = Except.error ("Failed to write file " ++ "/etc/hosts" ++ ": "
              ++ wRO.osError "/etc/hosts")
        ∧ strContains ("Failed to write file " ++ "/etc/hosts" ++ ": "
            ++ wRO.osError "/etc/hosts") "/etc/hosts"
        ∧ strContains ("Failed to write file " ++ "/etc/hosts" ++ ": "
            ++ wRO.osError "/etc/hosts") (wRO.osError "/etc/hosts")
        ∧ (apply_file_edit wRO "/etc/hosts" "x").2.writeLog
            = wRO.writeLog ++ [("/etc/hosts", "x")]) :=
  ⟨rfl, apply_file_edit_error_describes wRO "/etc/hosts" "x" rfl⟩

/-- C3: `greet n` contains `n` verbatim together with the literal substrings
`"Hello, "` and `"You've been greeted from Rust!"`, and
`greet "Ada"` is exactly `"Hello, Ada! You've been greeted from Rust!"`. -/
theorem greet_contains (n : String) :
    strContains (greet n) n
      ∧ strContains (greet n) "Hello, "
      ∧ strContains (greet n) "You've been greeted from Rust!"
      ∧ greet "Ada" = "Hello, Ada! You've been greeted from Rust!" := by
  refine ⟨⟨"Hello, ", "! You've been greeted from Rust!", rfl⟩, ?_, ?_, rfl⟩
  · exact ⟨"", n ++ "! You've been greeted from Rust!",
      by rw [String.empty_append]
         exact String.append_assoc "Hello, " n
           "! You've been greeted from Rust!"⟩
  · exact ⟨"Hello, " ++ n ++ "! ", "",
      by rw [String.append_empty,
           String.append_assoc ("Hello, " ++ n) "! "
             "You've been greeted from Rust!"]
         rfl⟩

/-- C4: `request_file_write_permission` returns `Ok(true)` on every pair of
inputs and never returns an error. -/
theorem request_file_write_permission_total (p d : String) :
    request_file_write_permission p d = Except.ok true := rfl

/-- C5: writing `a` and then `b` to the same path leaves the file containing
exactly `b` — the second call fully overwrites the first. -/
theorem apply_file_edit_overwrite (w : World) (p a b : String)
    (h : w.writable p = true) :
    ((apply_file_edit (apply_file_edit w p a).2 p b).2).files p
      = some b := by
  simp [apply_file_edit, fsWrite, h]

theorem apply_file_edit_overwrite_witness :
    wAll.writable "f.txt" = true ∧
      ((apply_file_edit (apply_file_edit wAll "f.txt" "A").2 "f.txt" "B").2).files
          "f.txt" = some "B" :=
  ⟨rfl, apply_file_edit_overwrite wAll "f.txt" "A" "B" rfl⟩

/-- C6: `apply_file_edit` changes no file other than the one at the supplied
path, whether the call succeeds or fails. -/
theorem apply_file_edit_frame (w : World) (p c q : String) (h : q ≠ p) :
    (apply_file_edit w p c).2.files q = w.files q := by
  by_cases hw : w.writable p = true
  · simp [apply_file_edit, fsWrite, hw, h]
  · simp [apply_file_edit, fsWrite, hw]

theorem apply_file_edit_frame_witness :
    "other.txt" ≠ "a.txt" ∧
      (apply_file_edit wAll "a.txt" "x").2.files "other.txt"
        = wAll.files "other.txt" :=
  ⟨by decide, apply_file_edit_frame wAll "a.txt" "x" "other.txt" (by decide)⟩

/-- C7: the result of `request_file_write_permission` does not depend on its
inputs — any two invocations return the same value. -/
theorem request_file_write_permission_constant (p d p2 d2 : String) :
    request_file_write_permission p d
      = request_file_write_permission p2 d2 := rfl

/-- C8: `greet` is pure and total at the bridge level: dispatching it always
returns a text result (never an error) and leaves the world unchanged. -/
theorem greet_pure (w : World) (n : String) :
    (runCommand w (Command.greetCmd n)).1 = CmdResult.text (greet n)
      ∧ (runCommand w (Command.greetCmd n)).2 = w :=
  ⟨rfl, rfl⟩

/-- C9: each bridge operation is idempotent: a second `apply_file_edit` with
the same arguments returns the same result and leaves the same file state as
the first, and repeating `greet` or `request_file_write_permission` from the
post-state yields the same outcome. -/
theorem bridge_idempotent (w : World) (p c n d : String) :
    ((apply_file_edit (apply_file_edit w p c).2 p c).1
        = (apply_file_edit w p c).1
      ∧ ∀ q, (apply_file_edit (apply_file_edit w p c).2 p c).2.files q
          = (apply_file_edit w p c).2.files q)
      ∧ runCommand (runCommand w (Command.greetCmd n)).2 (Command.greetCmd n)
          = runCommand w (Command.greetCmd n)
      ∧ runCommand (runCommand w (Command.permCmd p d)).2 (Command.permCmd p d)
          = runCommand w (Command.permCmd p d) := by
  refine ⟨⟨?_, ?_⟩, rfl, rfl⟩
  · by_cases hw : w.writable p = true
    · simp [apply_file_edit, fsWrite, hw]
    · simp [apply_file_edit, fsWrite, hw]
  · intro q
    by_cases hw : w.writable p = true
    · by_cases hq : q = p
      · simp [apply_file_edit, fsWrite, hw, hq]
      · simp [apply_file_edit, fsWrite, hw, hq]
    · simp [apply_file_edit, fsWrite, hw]

/-- C10: when no file exists at the path and the path is writable,
`apply_file_edit` succeeds and creates the file with exactly the supplied
content. -/
theorem apply_file_edit_creates (w : World) (p c : String)
    (_hnew : w.files p = none) (hw : w.writable p = true) :
    (apply_file_edit w p c).1 = Except.ok ()
      ∧ (apply_file_edit w p c).2.files p = some c := by
  refine ⟨?_, ?_⟩ <;> simp [apply_file_edit, fsWrite, hw]

theorem apply_file_edit_creates_witness :
    wAll.files "new.txt" = none ∧ wAll.writable "new.txt" = true ∧
      ((apply_file_edit wAll "new.txt" "hi").1 = Except.ok ()
        ∧ (apply_file_edit wAll "new.txt" "hi").2.files "new.txt"
            = some "hi") :=
  ⟨rfl, rfl, apply_file_edit_creates wAll "new.txt" "hi" rfl rfl⟩
